import Mathlib

/-!
Shallow embedding of the Person/Address/Class/Account resource service
(src/main.py, src/models/account.py, src/models/classes.py).

Modelling conventions:
* UUIDs and clock instants are abstract naturals.  Each call to `uuid4()`
  or `datetime.utcnow()` in the source becomes an explicit parameter of the
  embedded operation, in source call order (Pydantic invokes each field's
  `default_factory` separately, in field-declaration order).
* A Python dict is an insertion-ordered association list; assignment to an
  existing key replaces the value in place, assignment to a fresh key appends.
* Pydantic's `exclude_unset` presence tracking: an Update-shape field is
  `Option (Option a)` — the outer layer records whether the client set the
  field at all, the inner layer is the JSON value (null or a value).
* Python `float` amounts are modelled as rationals: the service only copies
  float values and compares them for equality, never does arithmetic.
* A handler is a function from the store (and its arguments) to the returned
  value paired with the store after the call; an uncaught Python exception
  becomes an error result with the store as it was when the exception was
  raised.
-/

/-- Abstract UUID values (results of `uuid4()` or client-supplied ids). -/
abbrev UUID := Nat

/-- Abstract clock instants (results of `datetime.utcnow()`). -/
abbrev Instant := Nat

/-- Errors surfaced by the embedded handlers: the 404 NotFound and 400
duplicate-id HTTP errors, a Pydantic validation failure, and a raised
`AttributeError`. -/
inductive PyError where
  | notFound
  | duplicateIdentity
  | validationError
  | attributeError
deriving DecidableEq

/-- Result of a handler body that may raise. -/
abbrev PyResult (α : Type) := Except PyError α

/-- An in-memory store (`persons`, `classes`, `accounts` in src/main.py):
a Python dict from UUID to the Read-shape record, with insertion order. -/
abbrev Store (α : Type) := List (UUID × α)

/-- The view `list(store.values())`: all records in insertion order. -/
def storeValues {α : Type} (s : Store α) : List α := s.map Prod.snd

/-- Dict assignment `store[k] = v`: if `k` is present its value is replaced
in place (keeping its position), otherwise the pair is appended. -/
def storeSet {α : Type} (s : Store α) (k : UUID) (v : α) : Store α :=
  match s with
  | [] => [(k, v)]
  | (k0, v0) :: t => if k0 = k then (k, v) :: t else (k0, v0) :: storeSet t k v

/-! ## Account models (src/models/account.py) -/

/-- AccountRead: domain fields of AccountBase plus server-assigned id and
the two timestamps, each with a default factory. -/
structure AccountRead where
  username : String
  number_id : Int
  amount : Rat
  id : UUID
  created_at : Instant
  updated_at : Instant
deriving DecidableEq

/-- AccountCreate: the three required domain fields of AccountBase. -/
structure AccountCreate where
  username : String
  number_id : Int
  amount : Rat
deriving DecidableEq

/-- AccountUpdate: every domain field optional and presence-tracked.
The outer Option is set/unset (`exclude_unset`), the inner Option is the
JSON value, which may be null even for a set field. -/
structure AccountUpdate where
  username : Option (Option String) := none
  number_id : Option (Option Int) := none
  amount : Option (Option Rat) := none
deriving DecidableEq

/-! ## Class models (src/models/classes.py).
ClassRead declares NO id field: only name, description and the two
timestamps. -/

/-- ClassRead: name (required), description (nullable), timestamps.
There is no id field in the source model. -/
structure ClassRead where
  name : String
  description : Option String
  created_at : Instant
  updated_at : Instant
deriving DecidableEq

/-- ClassCreate: name required, description optional (nullable). -/
structure ClassCreate where
  name : String
  description : Option String := none
deriving DecidableEq

/-- ClassUpdate: both fields optional and presence-tracked; a set field's
value may be null. -/
structure ClassUpdate where
  name : Option (Option String) := none
  description : Option (Option String) := none
deriving DecidableEq

/-! ## Person model.
src/models/person.py and src/models/address.py are not present under src/;
the data shapes below are modelled from the spec.  The list_persons filter
logic itself is taken from src/main.py, which is present. -/

/-- Modelled from the spec: a calendar date, the stored type of
Person.birth_date (src/models/person.py is missing from src/). -/
structure PyDate where
  year : Nat
  month : Nat
  day : Nat
deriving DecidableEq

/-- Zero-pad a numeral to width 2, as Python str(date) renders month and day. -/
def pad2 (n : Nat) : String :=
  if n < 10 then "0" ++ toString n else toString n

/-- Zero-pad a numeral to width 4, as Python str(date) renders the year. -/
def pad4 (n : Nat) : String :=
  if n < 10 then "000" ++ toString n
  else if n < 100 then "00" ++ toString n
  else if n < 1000 then "0" ++ toString n
  else toString n

/-- Canonical text form of a stored date, Python `str(p.birth_date)`:
ISO YYYY-MM-DD with zero padding. -/
def dateStr (d : PyDate) : String :=
  pad4 d.year ++ "-" ++ pad2 d.month ++ "-" ++ pad2 d.day

/-- Modelled from the spec: an Address-shaped record embedded in a Person
(street, city, state, postal_code, country); src/models/address.py is
missing from src/. -/
structure EmbeddedAddress where
  street : String
  city : String
  state : String
  postal_code : String
  country : String
deriving DecidableEq

/-- Modelled from the spec: PersonRead with the spec's domain fields (uni,
first_name, last_name, email, phone, birth_date, addresses) plus the
server id and timestamps; src/models/person.py is missing from src/. -/
structure PersonRead where
  uni : String
  first_name : String
  last_name : String
  email : String
  phone : String
  birth_date : PyDate
  addresses : List EmbeddedAddress
  id : UUID
  created_at : Instant
  updated_at : Instant
deriving DecidableEq

/-! ## Account handlers (src/main.py) -/

/-- create_account: `AccountRead(**account.model_dump())` copies the three
domain fields and fills id, created_at, updated_at from their default
factories — `newId` is the `uuid4()` result, `t1` and `t2` the two
successive `datetime.utcnow()` readings (created_at is declared before
updated_at, so its factory runs first).  The record is stored under its id
and returned. -/
def create_account (store : Store AccountRead) (account : AccountCreate)
    (newId : UUID) (t1 t2 : Instant) : AccountRead × Store AccountRead :=
  let account_read : AccountRead :=
    { username := account.username
      number_id := account.number_id
      amount := account.amount
      id := newId
      created_at := t1
      updated_at := t2 }
  (account_read, storeSet store newId account_read)

/-- get_account: point lookup; 404 if the id is absent, and the store is
never touched. -/
def get_account (store : Store AccountRead) (account_id : UUID) :
    PyResult AccountRead × Store AccountRead :=
  match store.lookup account_id with
  | none => (.error .notFound, store)
  | some r => (.ok r, store)

/-- The merge step of update_account:
`stored = accounts[id].model_dump()` — a dict holding every field of the
stored record, updated_at included; `stored.update(update.model_dump(exclude_unset=True))`
overlays exactly the fields the client set (a field set to null overlays
null); `AccountRead(**stored)` then revalidates.  Because the stored dict
supplies id, created_at and updated_at explicitly, none of their default
factories run: in particular updated_at is carried over unchanged.  A
required field overlaid with null fails validation. -/
def account_model_merge (r : AccountRead) (u : AccountUpdate) : PyResult AccountRead :=
  let username := match u.username with | none => some r.username | some v => v
  let number_id := match u.number_id with | none => some r.number_id | some v => v
  let amount := match u.amount with | none => some r.amount | some v => v
  match username, number_id, amount with
  | some us, some ni, some am =>
      .ok { username := us
            number_id := ni
            amount := am
            id := r.id
            created_at := r.created_at
            updated_at := r.updated_at }
  | _, _, _ => .error .validationError

/-- update_account: 404 if the id is absent (store untouched); otherwise
the merged record replaces the stored one and is returned.  If the merge
itself raises a validation error, nothing was assigned yet, so the store is
unchanged. -/
def update_account (store : Store AccountRead) (account_id : UUID)
    (update : AccountUpdate) : PyResult AccountRead × Store AccountRead :=
  match store.lookup account_id with
  | none => (.error .notFound, store)
  | some stored =>
    match account_model_merge stored update with
    | .ok r => (.ok r, storeSet store account_id r)
    | .error e => (.error e, store)

/-- list_accounts: scans the store in insertion order and applies each of
the three optional equality filters in turn, as in the source. -/
def list_accounts (store : Store AccountRead) (username : Option String)
    (number_id : Option Int) (amount : Option Rat) :
    List AccountRead × Store AccountRead :=
  let results := storeValues store
  let results := match username with
    | none => results
    | some q => results.filter (fun a => decide (a.username = q))
  let results := match number_id with
    | none => results
    | some q => results.filter (fun a => decide (a.number_id = q))
  let results := match amount with
    | none => results
    | some q => results.filter (fun a => decide (a.amount = q))
  (results, store)

/-- The filter contract of the spec for accounts: a record passes when
every supplied predicate's field equals the given value (logical AND);
an unset predicate imposes no constraint. -/
def account_matches (username : Option String) (number_id : Option Int)
    (amount : Option Rat) (a : AccountRead) : Bool :=
  (match username with | none => true | some q => decide (a.username = q)) &&
  (match number_id with | none => true | some q => decide (a.number_id = q)) &&
  (match amount with | none => true | some q => decide (a.amount = q))

/-! ## Class handlers (src/main.py) -/

/-- create_class: `ClassRead(**cls.model_dump())` succeeds (t1, t2 are the
two `utcnow()` readings for created_at and updated_at), but the next
statement `classes[class_read.id] = class_read` evaluates `class_read.id`
— and ClassRead (src/models/classes.py) declares no id field, so the
attribute access raises AttributeError before anything is stored. -/
def create_class (store : Store ClassRead) (cls : ClassCreate)
    (t1 t2 : Instant) : PyResult ClassRead × Store ClassRead :=
  let _class_read : ClassRead :=
    { name := cls.name
      description := cls.description
      created_at := t1
      updated_at := t2 }
  (.error .attributeError, store)

/-- The merge step of update_class, same dict overlay as for accounts:
fields the client set are overlaid even when null; `ClassRead(**stored)`
revalidation requires name to be non-null, while description may be null;
updated_at is carried over from the stored dict, not re-stamped. -/
def class_model_merge (r : ClassRead) (u : ClassUpdate) : PyResult ClassRead :=
  let name := match u.name with | none => some r.name | some v => v
  let description := match u.description with | none => r.description | some v => v
  match name with
  | some nm =>
      .ok { name := nm
            description := description
            created_at := r.created_at
            updated_at := r.updated_at }
  | none => .error .validationError

/-- update_class: 404 if the id is absent; otherwise the merged record
replaces the stored one and is returned; on a validation error the store
is unchanged. -/
def update_class (store : Store ClassRead) (class_id : UUID)
    (update : ClassUpdate) : PyResult ClassRead × Store ClassRead :=
  match store.lookup class_id with
  | none => (.error .notFound, store)
  | some stored =>
    match class_model_merge stored update with
    | .ok r => (.ok r, storeSet store class_id r)
    | .error e => (.error e, store)

/-! ## Person list handler (src/main.py) -/

/-- list_persons: scans the store in insertion order and applies the
optional filters in source order: five plain string equalities, then the
birth_date filter comparing `str(p.birth_date)` with the query string, then
the two nested filters that keep a person when ANY embedded address has the
given city (resp. country). -/
def list_persons (store : Store PersonRead)
    (uni first_name last_name email phone birth_date city country : Option String) :
    List PersonRead × Store PersonRead :=
  let results := storeValues store
  let results := match uni with
    | none => results
    | some q => results.filter (fun p => decide (p.uni = q))
  let results := match first_name with
    | none => results
    | some q => results.filter (fun p => decide (p.first_name = q))
  let results := match last_name with
    | none => results
    | some q => results.filter (fun p => decide (p.last_name = q))
  let results := match email with
    | none => results
    | some q => results.filter (fun p => decide (p.email = q))
  let results := match phone with
    | none => results
    | some q => results.filter (fun p => decide (p.phone = q))
  let results := match birth_date with
    | none => results
    | some q => results.filter (fun p => decide (dateStr p.birth_date = q))
  let results := match city with
    | none => results
    | some q => results.filter (fun p => p.addresses.any (fun addr => decide (addr.city = q)))
  let results := match country with
    | none => results
    | some q => results.filter (fun p => p.addresses.any (fun addr => decide (addr.country = q)))
  (results, store)

/-! ## Helper lemmas -/

/-- Inversion for a successful update_account: the id was present, the
merge succeeded, and the store was updated with the merged record. -/
theorem update_account_ok {store store2 : Store AccountRead} {i : UUID}
    {u : AccountUpdate} {r r2 : AccountRead}
    (h1 : store.lookup i = some r)
    (h2 : update_account store i u = (.ok r2, store2)) :
    account_model_merge r u = .ok r2 ∧ store2 = storeSet store i r2 := by
  simp only [update_account, h1] at h2
  cases hm : account_model_merge r u with
  | ok a =>
    rw [hm] at h2
    simp only [Prod.mk.injEq, Except.ok.injEq] at h2
    obtain ⟨rfl, h3⟩ := h2
    exact ⟨rfl, h3.symm⟩
  | error e =>
    rw [hm] at h2
    simp at h2

/-- Field-level description of a successful account merge: a field the
client did not set keeps the stored value, a field set to a non-null value
takes that value, and id, created_at and updated_at are carried over from
the stored record. -/
theorem account_model_merge_spec {r r2 : AccountRead} {u : AccountUpdate}
    (h : account_model_merge r u = .ok r2) :
    (u.username = none → r2.username = r.username) ∧
    (∀ v, u.username = some (some v) → r2.username = v) ∧
    (u.number_id = none → r2.number_id = r.number_id) ∧
    (∀ v, u.number_id = some (some v) → r2.number_id = v) ∧
    (u.amount = none → r2.amount = r.amount) ∧
    (∀ v, u.amount = some (some v) → r2.amount = v) ∧
    r2.id = r.id ∧ r2.created_at = r.created_at ∧ r2.updated_at = r.updated_at := by
  rcases u with ⟨_ | (_ | un), _ | (_ | ni), _ | (_ | am)⟩ <;>
    simp_all [account_model_merge] <;> simp [← h]

/-- Inversion for a successful update_class. -/
theorem update_class_ok {store store2 : Store ClassRead} {i : UUID}
    {u : ClassUpdate} {r r2 : ClassRead}
    (h1 : store.lookup i = some r)
    (h2 : update_class store i u = (.ok r2, store2)) :
    class_model_merge r u = .ok r2 ∧ store2 = storeSet store i r2 := by
  simp only [update_class, h1] at h2
  cases hm : class_model_merge r u with
  | ok a =>
    rw [hm] at h2
    simp only [Prod.mk.injEq, Except.ok.injEq] at h2
    obtain ⟨rfl, h3⟩ := h2
    exact ⟨rfl, h3.symm⟩
  | error e =>
    rw [hm] at h2
    simp at h2

/-- Field-level description of a successful class merge: an unset field
keeps the stored value, a set field takes the supplied value even when that
value is null, and the timestamps are carried over from the stored record. -/
theorem class_model_merge_spec {r r2 : ClassRead} {u : ClassUpdate}
    (h : class_model_merge r u = .ok r2) :
    (u.name = none → r2.name = r.name) ∧
    (∀ v, u.name = some (some v) → r2.name = v) ∧
    (u.description = none → r2.description = r.description) ∧
    (∀ v, u.description = some v → r2.description = v) ∧
    r2.created_at = r.created_at ∧ r2.updated_at = r.updated_at := by
  rcases u with ⟨_ | (_ | un), _ | de⟩ <;>
    simp_all [class_model_merge] <;> simp [← h]

/-! ## Concrete records used by the witnesses -/

/-- A sample stored account. -/
def accountW : AccountRead :=
  { username := "alice", number_id := 1, amount := 10, id := 0,
    created_at := 3, updated_at := 5 }

/-- accountW after a merge-update that sets only the username. -/
def accountW2 : AccountRead := { accountW with username := "bob" }

/-- A sample stored class with a non-null description. -/
def classW : ClassRead :=
  { name := "Mathematics 101", description := some "intro", created_at := 3, updated_at := 5 }

/-- classW after a merge-update that sets description to null. -/
def classW2 : ClassRead := { classW with description := none }

/-! ## Claim theorems -/

/-- C1: the claim says a successful PATCH re-stamps updated_at to the
current time.  The code does the opposite: the stored dict produced by
model_dump() already contains updated_at, so the Read constructor's default
factory never runs and the merged record keeps the OLD updated_at — the
update path reads no clock at all.  This theorem exhibits that behaviour:
the merged record's updated_at always equals the stored one's. -/
theorem update_account_never_restamps_updated_at (store store2 : Store AccountRead)
    (i : UUID) (u : AccountUpdate) (r r2 : AccountRead)
    (h1 : store.lookup i = some r)
    (h2 : update_account store i u = (.ok r2, store2)) :
    r2.updated_at = r.updated_at :=
  (account_model_merge_spec (update_account_ok h1 h2).1).2.2.2.2.2.2.2.2

/-- C1 witness: patching the stored account accountW (updated_at = 5) with
a username change succeeds and still carries updated_at = 5. -/
theorem update_account_never_restamps_updated_at_witness :
    update_account [(0, accountW)] 0 { username := some (some "bob") }
      = (.ok accountW2, [(0, accountW2)]) ∧
    accountW2.updated_at = accountW.updated_at :=
  ⟨rfl,
   update_account_never_restamps_updated_at [(0, accountW)] [(0, accountW2)] 0
     { username := some (some "bob") } accountW accountW2 rfl rfl⟩

/-- C2: the claim says create_class succeeds and stores the record under a
fresh server UUID.  In the code, ClassRead declares no id field, so the
store assignment `classes[class_read.id]` raises AttributeError on every
input: create_class never succeeds and never stores anything. -/
theorem create_class_attribute_error (store : Store ClassRead)
    (cls : ClassCreate) (t1 t2 : Instant) :
    create_class store cls t1 t2 = (.error .attributeError, store) := rfl

/-- C3: a successful merge-update changes exactly the explicitly set
domain fields (an unset field keeps the stored value; a set non-null field
takes the supplied value), leaves id and created_at unchanged, and replaces
the stored record under the same key. -/
theorem update_account_frame (store store2 : Store AccountRead)
    (i : UUID) (u : AccountUpdate) (r r2 : AccountRead)
    (h1 : store.lookup i = some r)
    (h2 : update_account store i u = (.ok r2, store2)) :
    (u.username = none → r2.username = r.username) ∧
    (∀ v, u.username = some (some v) → r2.username = v) ∧
    (u.number_id = none → r2.number_id = r.number_id) ∧
    (∀ v, u.number_id = some (some v) → r2.number_id = v) ∧
    (u.amount = none → r2.amount = r.amount) ∧
    (∀ v, u.amount = some (some v) → r2.amount = v) ∧
    r2.id = r.id ∧ r2.created_at = r.created_at ∧
    store2 = storeSet store i r2 := by
  obtain ⟨hm, hs⟩ := update_account_ok h1 h2
  have h := account_model_merge_spec hm
  exact ⟨h.1, h.2.1, h.2.2.1, h.2.2.2.1, h.2.2.2.2.1, h.2.2.2.2.2.1,
    h.2.2.2.2.2.2.1, h.2.2.2.2.2.2.2.1, hs⟩

/-- C3 witness: patching accountW with only a username change succeeds;
the new username is applied while number_id, amount, id and created_at are
untouched. -/
theorem update_account_frame_witness :
    update_account [(0, accountW)] 0 { username := some (some "bob") }
      = (.ok accountW2, [(0, accountW2)]) ∧
    accountW2.username = "bob" ∧
    accountW2.number_id = accountW.number_id ∧
    accountW2.amount = accountW.amount ∧
    accountW2.id = accountW.id ∧
    accountW2.created_at = accountW.created_at := by
  have h := update_account_frame [(0, accountW)] [(0, accountW2)] 0
    { username := some (some "bob") } accountW accountW2 rfl rfl
  exact ⟨rfl, h.2.1 "bob" rfl, h.2.2.1 rfl, h.2.2.2.2.1 rfl,
    h.2.2.2.2.2.2.1, h.2.2.2.2.2.2.2.1⟩

/-- C4 counterexample: the claim says created_at equals updated_at at
creation.  The two fields are filled by two separate utcnow() readings
(one default factory each); when the readings differ — here 0 and 1 — the
created record has created_at different from updated_at. -/
theorem create_account_created_eq_updated_counterexample :
    (create_account [] { username := "alice", number_id := 1, amount := 10 } 7 0 1).1.created_at
      ≠ (create_account [] { username := "alice", number_id := 1, amount := 10 } 7 0 1).1.updated_at := by
  decide

/-- C4 amended: at creation, created_at takes the first clock reading and
updated_at the second; they coincide exactly when the two readings do,
which the code does not guarantee. -/
theorem create_account_stamps_two_clock_reads (store : Store AccountRead)
    (account : AccountCreate) (newId : UUID) (t1 t2 : Instant) :
    (create_account store account newId t1 t2).1.created_at = t1 ∧
    (create_account store account newId t1 t2).1.updated_at = t2 :=
  ⟨rfl, rfl⟩

/-- C5: list_accounts returns exactly the full scan filtered by the
conjunction of the supplied equality predicates, and with no predicate
supplied it returns the full scan in insertion order. -/
theorem list_accounts_conjunctive_filter (store : Store AccountRead)
    (username : Option String) (number_id : Option Int) (amount : Option Rat) :
    (list_accounts store username number_id amount).1
      = (storeValues store).filter (account_matches username number_id amount) ∧
    (list_accounts store none none none).1 = storeValues store := by
  constructor
  · delta account_matches
    cases username <;> cases number_id <;> cases amount <;>
      simp [list_accounts, List.filter_filter, Bool.and_comm,
        Bool.and_left_comm, Bool.and_assoc]
  · rfl

/-- C6: under a city (resp. country) filter, a person is returned exactly
when some embedded address has that city (resp. country): the nested
filter is existential over the address list. -/
theorem list_persons_nested_existential (store : Store PersonRead)
    (c k : String) (p : PersonRead) :
    (p ∈ (list_persons store none none none none none none (some c) none).1 ↔
      p ∈ storeValues store ∧ ∃ a ∈ p.addresses, a.city = c) ∧
    (p ∈ (list_persons store none none none none none none none (some k)).1 ↔
      p ∈ storeValues store ∧ ∃ a ∈ p.addresses, a.country = k) := by
  constructor <;> simp [list_persons]

/-- C7: under a birth_date filter string s, a person is returned exactly
when the canonical text form of its stored date equals s — the comparison
is string equality against str(p.birth_date), not typed date equality; the
canonical form is zero-padded ISO YYYY-MM-DD, as the final conjunct shows. -/
theorem list_persons_birth_date_string_equality (store : Store PersonRead)
    (s : String) (p : PersonRead) :
    (p ∈ (list_persons store none none none none none (some s) none none).1 ↔
      p ∈ storeValues store ∧ dateStr p.birth_date = s) ∧
    dateStr { year := 1990, month := 1, day := 1 } = "1990-01-01" := by
  constructor
  · simp [list_persons]
  · rfl

/-- C8: point lookup and merge-update against an absent id both fail with
NotFound and return the store exactly as it was: no entry is created. -/
theorem absent_id_not_found_store_unchanged (store : Store AccountRead)
    (i : UUID) (u : AccountUpdate)
    (h : store.lookup i = none) :
    get_account store i = (.error .notFound, store) ∧
    update_account store i u = (.error .notFound, store) := by
  constructor <;> simp [get_account, update_account, h]

/-- C8 witness: id 0 is absent from the store holding only id 1; GET and
PATCH both fail with NotFound and leave the store as it was. -/
theorem absent_id_not_found_store_unchanged_witness :
    List.lookup 0 [(1, accountW)] = none ∧
    get_account [(1, accountW)] 0 = (.error .notFound, [(1, accountW)]) ∧
    update_account [(1, accountW)] 0 {} = (.error .notFound, [(1, accountW)]) :=
  ⟨rfl,
   (absent_id_not_found_store_unchanged [(1, accountW)] 0 {} rfl).1,
   (absent_id_not_found_store_unchanged [(1, accountW)] 0 {} rfl).2⟩

/-- C9: in a successful class merge-update, any explicitly set description
is applied even when its value is null: presence, not non-null-ness,
decides whether the field overrides the stored one. -/
theorem update_class_null_override (store store2 : Store ClassRead)
    (i : UUID) (u : ClassUpdate) (r r2 : ClassRead) (v : Option String)
    (h1 : store.lookup i = some r)
    (hset : u.description = some v)
    (h2 : update_class store i u = (.ok r2, store2)) :
    r2.description = v :=
  (class_model_merge_spec (update_class_ok h1 h2).1).2.2.2.1 v hset

/-- C9 witness: classW stores description "intro"; an update explicitly
setting description to null succeeds and the stored description becomes
null. -/
theorem update_class_null_override_witness :
    update_class [(0, classW)] 0 { description := some none }
      = (.ok classW2, [(0, classW2)]) ∧
    classW2.description = none :=
  ⟨rfl,
   update_class_null_override [(0, classW)] [(0, classW2)] 0
     { description := some none } classW classW2 none rfl rfl rfl⟩

/-- C10: the list handlers are read-only: for every store state and every
combination of supplied filters, the store after the call is exactly the
store before it. -/
theorem list_endpoints_store_unchanged (astore : Store AccountRead)
    (pstore : Store PersonRead)
    (username : Option String) (number_id : Option Int) (amount : Option Rat)
    (uni first_name last_name email phone birth_date city country : Option String) :
    (list_accounts astore username number_id amount).2 = astore ∧
    (list_persons pstore uni first_name last_name email phone birth_date city country).2 = pstore :=
  ⟨rfl, rfl⟩
